import Mathlib

/-!
Shallow embedding of the `opencode_wrapper` package, covering
`src/opencode_wrapper/config.py` (configuration resolution, merging,
validation, default-file writing) and `src/opencode_wrapper/wrapper.py`
(child-process invocation and environment construction).

Modelling choices, stated once here:
* Python dicts with string keys are modelled extensionally as
  `String → Option Value` (`PyDict`); `{**a, **b}` is `dictUpdate a b`.
* `pathlib.Path` values are modelled as plain strings; `Path(s)` performs
  no normalisation relevant to the claims. `Path.expanduser` is modelled
  for the bare `~` and `~/...` forms (the `~user` form never arises in
  the claims).
* The filesystem content of one candidate config file is a `FileState`:
  absent, present-but-unparseable, or present with a parsed YAML document.
  YAML encode/decode itself is a black box per the spec; only the parsed
  document shape matters.
* `os.environ` / `os.getenv` is a function `String → Option String`.
* Python exceptions become `Except`. The code has two distinct error
  types on the resolution path: its own `ConfigError` class and
  pydantic's `ValidationError` raised by `OpencodeConfig.model_validate`;
  these are the two constructors of `LoadError`.
* pydantic v2 does not run validators (including `mode="before"` field
  validators) on default values, since `validate_default` is not set;
  therefore a field default is used verbatim when its key is absent from
  the merged mapping.
* pydantic collects all field errors into one `ValidationError`; here
  validation short-circuits at the first failing field, which is
  equivalent for every claim (only the error's type and presence matter).
-/

/-- A Python value as it can appear in a parsed YAML mapping or in the
merged configuration mapping (`Any` in the source, restricted to the
scalar shapes YAML produces for this config). -/
inductive Value where
  | vNull
  | vBool (b : Bool)
  | vInt (n : Int)
  | vStr (s : String)
  deriving DecidableEq, Repr

/-- A Python dict with string keys, modelled extensionally by lookup. -/
def PyDict : Type := String → Option Value

/-- The empty dict `{}`. -/
def PyDict.empty : PyDict := fun _ => none

/-- Dict item assignment `d[k] = v`. -/
def PyDict.set (d : PyDict) (k : String) (v : Value) : PyDict :=
  fun q => if q = k then some v else d q

/-- Python's `{**a, **b}`: keys of `b` override keys of `a`. -/
def dictUpdate (a b : PyDict) : PyDict :=
  fun k =>
    match b k with
    | some v => some v
    | none => a k

/-- The three-way merge `{**user_data, **project_data, **env_data}` from
`ConfigManager.load` (config.py line 101). -/
def mergeThree (user project env : PyDict) : PyDict :=
  dictUpdate (dictUpdate user project) env

/-- A parsed YAML document (the result of `yaml.safe_load`). -/
inductive Yaml where
  | ynull
  | ybool (b : Bool)
  | yint (n : Int)
  | ystr (s : String)
  | yseq (items : List Value)
  | ymap (entries : List (String × Value))
  deriving DecidableEq, Repr

/-- Python truthiness of a parsed YAML document, as used by the
`yaml.safe_load(path.read_text()) or {}` expression (config.py line 137). -/
def Yaml.truthy : Yaml → Bool
  | .ynull => false
  | .ybool b => b
  | .yint n => n != 0
  | .ystr s => s != ""
  | .yseq items => !items.isEmpty
  | .ymap entries => !entries.isEmpty

/-- Whether a parsed YAML document is a mapping (`isinstance(data, dict)`). -/
def Yaml.isMap : Yaml → Bool
  | .ymap _ => true
  | _ => false

/-- State of one candidate config file on disk: absent, present but not
parseable as YAML (`yaml.YAMLError`), or present and parsed. -/
inductive FileState where
  | absent
  | parseError
  | parsed (y : Yaml)
  deriving DecidableEq, Repr

/-- Result of `path.exists()` for the modelled file. -/
def FileState.fileExists : FileState → Bool
  | .absent => false
  | _ => true

/-- The two error types raised on the resolution path: the package's own
`ConfigError` (config.py line 53) and pydantic's `ValidationError` raised
by `OpencodeConfig.model_validate` (config.py line 102). The CLI layer
catches only `ConfigError`. -/
inductive LoadError where
  | configError (msg : String)
  | validationError (msg : String)
  deriving DecidableEq, Repr

/-- Whether a `LoadError` is the package's typed `ConfigError`. -/
def LoadError.isConfigError : LoadError → Bool
  | .configError _ => true
  | .validationError _ => false

/-- `ConfigManager._read_yaml` (config.py lines 133-142): absent file gives
`{}`; a parse failure raises `ConfigError "Invalid YAML in {path}"`; a falsy
parsed document is replaced by `{}` (the `or {}`); a truthy non-mapping
raises `ConfigError "Config file {path} must contain a mapping"`. -/
def readYaml (path : String) (file : FileState) : Except LoadError (List (String × Value)) :=
  match file with
  | .absent => .ok []
  | .parseError => .error (.configError ("Invalid YAML in " ++ path))
  | .parsed y =>
      let data := if y.truthy then y else .ymap []
      match data with
      | .ymap entries => .ok entries
      | _ => .error (.configError ("Config file " ++ path ++ " must contain a mapping"))

/-- Building a Python dict from parsed YAML mapping entries; a later
duplicate key overwrites an earlier one, as in PyYAML's construction. -/
def entriesToDict (entries : List (String × Value)) : PyDict :=
  entries.foldl (fun d p => d.set p.1 p.2) PyDict.empty

/-- Digit run of Python's `int(str)` grammar: one or more decimal digits
with single underscores allowed strictly between digits. `acc` is the value
so far; `last` records whether the previous character was a digit. -/
def pyDigits : List Char → Nat → Bool → Option Nat
  | [], acc, true => some acc
  | [], _, false => none
  | c :: rest, acc, last =>
      if c.isDigit then pyDigits rest (acc * 10 + (c.toNat - 48)) true
      else if c == '_' && last then pyDigits rest acc false
      else none

/-- The ASCII whitespace characters Python's `int()` and `str.strip()`
ignore around a number. -/
def isPySpace (c : Char) : Bool :=
  c == ' ' || c == '\t' || c == '\n' || c == '\r' || c == '\x0b' || c == '\x0c'

/-- Leading and trailing whitespace removal (`str.strip()` semantics). -/
def pyStrip (cs : List Char) : List Char :=
  ((cs.dropWhile isPySpace).reverse.dropWhile isPySpace).reverse

/-- Python's `int(s)` for decimal strings: surrounding whitespace stripped,
optional sign, then digits (with underscores between digits); `none` when
`int` would raise `ValueError`. (Non-ASCII digit forms are out of scope.) -/
def pyInt (s : String) : Option Int :=
  match pyStrip s.toList with
  | '+' :: rest => (pyDigits rest 0 false).map Int.ofNat
  | '-' :: rest => (pyDigits rest 0 false).map (fun n => -(n : Int))
  | rest => (pyDigits rest 0 false).map Int.ofNat

/-- Python truthiness filter on an `Optional[str]`: `None` and the empty
string are falsy, everything else is kept. This is the `if value:` guard
used throughout `_read_env` and `_build_env`. -/
def truthyStr : Option String → Option String
  | some s => if s = "" then none else some s
  | none => none

/-- `ConfigManager._read_env` (config.py lines 114-131): reads the four
recognized `OPENENCODE_*` variables, skipping falsy (absent or empty)
values; a truthy `OPENENCODE_MAX_TOKENS` that `int()` rejects raises
`ConfigError "OPENENCODE_MAX_TOKENS must be an integer"`. -/
def readEnv (getenv : String → Option String) : Except LoadError PyDict := do
  let d := PyDict.empty
  let d := match truthyStr (getenv "OPENENCODE_API_KEY") with
    | some s => d.set "api_key" (.vStr s)
    | none => d
  let d := match truthyStr (getenv "OPENENCODE_MODEL") with
    | some s => d.set "model" (.vStr s)
    | none => d
  let d ← match truthyStr (getenv "OPENENCODE_MAX_TOKENS") with
    | some s =>
        match pyInt s with
        | some n => pure (d.set "max_tokens" (.vInt n))
        | none => Except.error (.configError "OPENENCODE_MAX_TOKENS must be an integer")
    | none => pure d
  let d := match truthyStr (getenv "OPENENCODE_WORKSPACE_DIR") with
    | some s => d.set "workspace_dir" (.vStr s)
    | none => d
  return d

/-- `Path(p).expanduser()` relative to the given home directory: a bare
`~` becomes home, `~/rest` becomes home plus `/rest`, anything else is
returned unchanged (the `~user` form is out of scope for the claims). -/
def expanduser (home : String) (p : String) : String :=
  match p.toList with
  | ['~'] => home
  | '~' :: '/' :: rest => home ++ String.mk ('/' :: rest)
  | _ => p

/-- The validated configuration `OpencodeConfig` (config.py lines 12-26):
`api_key : str | None`, `model : str`, `max_tokens : int` bounded to
[1, 32000], `workspace_dir : Path` (modelled as a string). -/
structure OpencodeConfig where
  api_key : Option String
  model : String
  max_tokens : Int
  workspace_dir : String
  deriving DecidableEq, Repr

/-- `OpencodeConfig()` with no arguments: the field defaults, which pydantic
does not validate (so `workspace_dir` keeps the literal default
`~/opencode-workspace`, unexpanded). -/
def OpencodeConfig.defaults : OpencodeConfig :=
  ⟨none, "gpt-4", 4096, "~/opencode-workspace"⟩

/-- `OpencodeConfig.model_validate(merged)` (config.py line 102), with the
host home directory as a parameter for `expanduser`. Field rules follow
pydantic v2: `api_key` accepts a string or null; `model` accepts a string;
`max_tokens` accepts an int (or an integer string, lax-coerced) and is
bounds-checked against ge=1, le=32000; `workspace_dir` runs the
`mode="before"` validator `Path(value).expanduser()` on provided values
only — an absent key takes the default verbatim, because pydantic does not
validate defaults. Failure is pydantic's `ValidationError`, not the
package's `ConfigError`. -/
def modelValidate (home : String) (merged : PyDict) : Except LoadError OpencodeConfig := do
  let api_key ← match merged "api_key" with
    | none => pure (none : Option String)
    | some .vNull => pure (none : Option String)
    | some (.vStr s) => pure (some s)
    | some _ => Except.error (.validationError "api_key: Input should be a valid string")
  let model ← match merged "model" with
    | none => pure "gpt-4"
    | some (.vStr s) => pure s
    | some _ => Except.error (.validationError "model: Input should be a valid string")
  let max_tokens ← match merged "max_tokens" with
    | none => pure (4096 : Int)
    | some (.vInt n) =>
        if n < 1 then
          Except.error (.validationError "max_tokens: Input should be greater than or equal to 1")
        else if 32000 < n then
          Except.error (.validationError "max_tokens: Input should be less than or equal to 32000")
        else pure n
    | some (.vStr s) =>
        match pyInt s with
        | some n =>
            if n < 1 then
              Except.error (.validationError "max_tokens: Input should be greater than or equal to 1")
            else if 32000 < n then
              Except.error (.validationError "max_tokens: Input should be less than or equal to 32000")
            else pure n
        | none => Except.error (.validationError "max_tokens: Input should be a valid integer")
    | some _ => Except.error (.validationError "max_tokens: Input should be a valid integer")
  let workspace_dir ← match merged "workspace_dir" with
    | none => pure "~/opencode-workspace"
    | some (.vStr s) => pure (expanduser home s)
    | some _ => Except.error (.validationError "workspace_dir: Input is not a valid path")
  return OpencodeConfig.mk api_key model max_tokens workspace_dir

/-- `ConfigPaths` (config.py lines 29-34). -/
structure ConfigPaths where
  user_config_dir : String
  user_config_file : String
  project_config_file : String
  deriving DecidableEq, Repr

/-- `ConfigManager.resolve_paths` (config.py lines 64-74), with the
platform config-directory service (`platformdirs.user_config_path`) and the
current working directory as parameters. The file names are the fixed
`config.yaml` and `.opencode.yaml`. -/
def resolve_paths (userConfigDir cwd : String) : ConfigPaths :=
  ⟨userConfigDir, userConfigDir ++ "/config.yaml", cwd ++ "/.opencode.yaml"⟩

/-- `ConfigSource` (config.py lines 37-43). -/
structure ConfigSource where
  path : String
  fileExists : Bool
  loaded : Bool
  data : List (String × Value)
  deriving DecidableEq, Repr

/-- `ConfigLoadResult` (config.py lines 46-50). -/
structure ConfigLoadResult where
  config : OpencodeConfig
  sources : List ConfigSource
  deriving DecidableEq, Repr

/-- `ConfigManager.load` (config.py lines 76-103): read the user file, read
the project file, read the environment, merge with `{**user, **project,
**env}`, validate, and return the config with the two file-based source
records. -/
def load (home : String) (getenv : String → Option String) (paths : ConfigPaths)
    (userFile projectFile : FileState) : Except LoadError ConfigLoadResult := do
  let user_data ← readYaml paths.user_config_file userFile
  let userSource : ConfigSource :=
    ⟨paths.user_config_file, userFile.fileExists, !user_data.isEmpty, user_data⟩
  let project_data ← readYaml paths.project_config_file projectFile
  let projectSource : ConfigSource :=
    ⟨paths.project_config_file, projectFile.fileExists, !project_data.isEmpty, project_data⟩
  let env_data ← readEnv getenv
  let merged := mergeThree (entriesToDict user_data) (entriesToDict project_data) env_data
  let config ← modelValidate home merged
  return ⟨config, [userSource, projectSource]⟩

/-- `model_dump(mode="json")` of an `OpencodeConfig`: the four fields in
declaration order, `None` as null, the path as its string. -/
def OpencodeConfig.dumpJson (c : OpencodeConfig) : List (String × Value) :=
  [("api_key", match c.api_key with | some s => .vStr s | none => .vNull),
   ("model", .vStr c.model),
   ("max_tokens", .vInt c.max_tokens),
   ("workspace_dir", .vStr c.workspace_dir)]

/-- State of the user config directory and file for `write_default`:
whether the directory exists and the file's serialized mapping content
(`none` means the file does not exist). -/
structure UserConfigFS where
  dirExists : Bool
  fileContent : Option (List (String × Value))
  deriving DecidableEq, Repr

/-- `ConfigManager.write_default` (config.py lines 105-112): if the user
config file exists and `force` is false, return its path with no write;
otherwise create the directory (parents, exist_ok), serialize
`OpencodeConfig()` defaults, and write them. `writeOk` models whether the
underlying `path.write_text` succeeds; on `OSError` the `_write_yaml`
helper raises `ConfigError "Unable to write config to {path}"`. -/
def write_default (paths : ConfigPaths) (force : Bool) (fs : UserConfigFS)
    (writeOk : Bool) : Except LoadError (String × UserConfigFS) :=
  if fs.fileContent.isSome && !force then .ok (paths.user_config_file, fs)
  else
    let fs1 : UserConfigFS := { fs with dirExists := true }
    if writeOk then
      .ok (paths.user_config_file, { fs1 with fileContent := some OpencodeConfig.defaults.dumpJson })
    else .error (.configError ("Unable to write config to " ++ paths.user_config_file))

/-- `RunResult` (wrapper.py lines 13-18). -/
structure RunResult where
  returncode : Int
  stdout : Option String
  stderr : Option String
  deriving DecidableEq, Repr

/-- Outcome of the operating system's attempt to spawn the fixed `opencode`
command: the executable is not on the PATH (`FileNotFoundError` from
`subprocess.run`); some other `OSError` arises at spawn (for example
`PermissionError` when the file is found but not executable), carrying its
message; or the child runs to completion with an exit code and the text it
wrote to each stream. -/
inductive SpawnOutcome where
  | notFound
  | otherOSError (msg : String)
  | completed (returncode : Int) (stdout stderr : String)
  deriving DecidableEq, Repr

/-- How `OpencodeRunner.run` can fail: the distinct
`RuntimeError("opencode executable not found in PATH")` raised by the
`except FileNotFoundError` clause (wrapper.py lines 56-57), or any other
`OSError` from spawning, which that clause does not catch and which
therefore propagates out of `run` as a generic OS error. -/
inductive RunError where
  | executableNotFound (msg : String)
  | osError (msg : String)
  deriving DecidableEq, Repr

/-- Whether a `RunError` is the distinct executable-not-found
`RuntimeError` rather than a generic propagated `OSError`. -/
def RunError.isExecutableNotFound : RunError → Bool
  | .executableNotFound _ => true
  | .osError _ => false

/-- `OpencodeRunner.run` (wrapper.py lines 35-62): a `FileNotFoundError`
from spawning becomes the distinct executable-not-found error; any other
`OSError` from spawning escapes the `except FileNotFoundError` clause and
propagates unconverted; a completed child yields `RunResult` with its exit
code — captured text only in non-interactive mode (interactive mode
inherits the streams, so the completed process carries no captured text) —
and a non-zero exit code is returned, never raised (`check=False`). -/
def runOpencode (outcome : SpawnOutcome) (interactive : Bool) : Except RunError RunResult :=
  match outcome with
  | .notFound => .error (.executableNotFound "opencode executable not found in PATH")
  | .otherOSError msg => .error (.osError msg)
  | .completed rc out err =>
      if interactive then .ok ⟨rc, none, none⟩
      else .ok ⟨rc, some out, some err⟩

/-- A process environment (`os.environ`), modelled extensionally. -/
def EnvMap : Type := String → Option String

/-- Environment variable assignment `env[k] = v`. -/
def EnvMap.set (e : EnvMap) (k v : String) : EnvMap :=
  fun q => if q = k then some v else e q

/-- `OpencodeRunner._build_env` (wrapper.py lines 64-71): copy the current
process environment, set `OPENENCODE_API_KEY` only when `config.api_key` is
truthy (non-None, non-empty), and always set `OPENENCODE_MODEL`,
`OPENENCODE_MAX_TOKENS` (as `str(int)`), and `OPENENCODE_WORKSPACE_DIR`. -/
def build_env (osEnviron : EnvMap) (config : OpencodeConfig) : EnvMap :=
  let env := osEnviron
  let env := match truthyStr config.api_key with
    | some key => env.set "OPENENCODE_API_KEY" key
    | none => env
  let env := env.set "OPENENCODE_MODEL" config.model
  let env := env.set "OPENENCODE_MAX_TOKENS" (toString config.max_tokens)
  env.set "OPENENCODE_WORKSPACE_DIR" config.workspace_dir

/-! Theorems for the claims. -/

/-- Helper: bind on an ok `Except` value reduces to the continuation. -/
theorem exceptBind_ok {α β ε : Type} (a : α) (f : α → Except ε β) :
    (Except.ok a : Except ε α) >>= f = f a := rfl

/-- Helper: when all three sources read successfully, `load` is
`modelValidate` applied to the three-way merge, with the two file-based
provenance records attached. -/
theorem load_decompose (home : String) (g : String → Option String) (paths : ConfigPaths)
    (uf pf : FileState) (ud pd : List (String × Value)) (ed : PyDict)
    (hu : readYaml paths.user_config_file uf = .ok ud)
    (hp : readYaml paths.project_config_file pf = .ok pd)
    (he : readEnv g = .ok ed) :
    load home g paths uf pf =
      match modelValidate home (mergeThree (entriesToDict ud) (entriesToDict pd) ed) with
      | .ok c => .ok ⟨c, [⟨paths.user_config_file, uf.fileExists, !ud.isEmpty, ud⟩,
                          ⟨paths.project_config_file, pf.fileExists, !pd.isEmpty, pd⟩]⟩
      | .error e => .error e := by
  unfold load
  simp only [hu, hp, he, exceptBind_ok]
  cases modelValidate home (mergeThree (entriesToDict ud) (entriesToDict pd) ed) <;> rfl

/-- C1: `ConfigManager.load` merges the user-file, project-file and
environment mappings key-by-key with precedence environment > project file
> user file; concretely, with user file `{model: a}`, project file
`{model: b}` and environment `OPENENCODE_MODEL=c` the resolved model is
`c`; removing the environment variable yields `b`; removing the
project-file value as well yields `a`. -/
theorem C1_merge_precedence :
    (∀ (user project env : PyDict) (k : String),
      mergeThree user project env k =
        match env k with
        | some v => some v
        | none =>
            match project k with
            | some v => some v
            | none => user k)
    ∧ ((load "/home/user" (fun v => if v = "OPENENCODE_MODEL" then some "c" else none)
          (resolve_paths "/cfg/opencode-wrapper" "/proj")
          (.parsed (.ymap [("model", .vStr "a")]))
          (.parsed (.ymap [("model", .vStr "b")]))).toOption.map
        (fun r => r.config.model) = some "c")
    ∧ ((load "/home/user" (fun _ => none)
          (resolve_paths "/cfg/opencode-wrapper" "/proj")
          (.parsed (.ymap [("model", .vStr "a")]))
          (.parsed (.ymap [("model", .vStr "b")]))).toOption.map
        (fun r => r.config.model) = some "b")
    ∧ ((load "/home/user" (fun _ => none)
          (resolve_paths "/cfg/opencode-wrapper" "/proj")
          (.parsed (.ymap [("model", .vStr "a")])) .absent).toOption.map
        (fun r => r.config.model) = some "a") := by
  refine ⟨?_, ?_, ?_, ?_⟩
  · intro user project env k
    unfold mergeThree dictUpdate
    cases env k <;> cases project k <;> rfl
  · rfl
  · rfl
  · rfl

/-- C7 counterexample: a found-but-non-executable file is a "cannot be
started" case, but `subprocess.run` raises `PermissionError` there, which
the `except FileNotFoundError` clause does not catch — the invocation
fails with a generic propagated OS error, not the distinct
executable-not-found error, so the claim's universal over every
cannot-be-located-or-started invocation is false. -/
theorem C7_counterexample :
    runOpencode (.otherOSError "[Errno 13] Permission denied: 'opencode'") false
      = .error (.osError "[Errno 13] Permission denied: 'opencode'")
    ∧ RunError.isExecutableNotFound
        (.osError "[Errno 13] Permission denied: 'opencode'") = false :=
  ⟨rfl, rfl⟩

/-- C7 (amended): when the executable cannot be located
(`FileNotFoundError`), the invocation fails with the distinct
executable-not-found error, and any child that actually ran — with any
exit code — yields an ok `RunResult`, so those two cases are
distinguishable; but any other OS error at spawn (such as
`PermissionError` for a found but non-executable file) propagates as a
generic OS error, not as the distinct error. -/
theorem C7_notfound_amended (interactive : Bool) :
    (runOpencode .notFound interactive =
      .error (.executableNotFound "opencode executable not found in PATH"))
    ∧ (∀ (rc : Int) (out err : String), ∃ r : RunResult,
        runOpencode (.completed rc out err) interactive = .ok r)
    ∧ (∀ msg, runOpencode (.otherOSError msg) interactive = .error (.osError msg)
        ∧ RunError.isExecutableNotFound (.osError msg) = false) := by
  refine ⟨rfl, ?_, ?_⟩
  · intro rc out err
    cases interactive <;> exact ⟨_, rfl⟩
  · intro msg
    exact ⟨rfl, rfl⟩

/-- C8: for a child that runs to completion, interactive mode returns the
child's exit code with both captured-text fields absent, and captured mode
returns the exit code together with the full captured stdout and stderr;
in both modes a non-zero exit code is returned in the result, never
raised. -/
theorem C8_run_result (rc : Int) (out err : String) :
    runOpencode (.completed rc out err) true = .ok ⟨rc, none, none⟩
    ∧ runOpencode (.completed rc out err) false = .ok ⟨rc, some out, some err⟩ :=
  ⟨rfl, rfl⟩

/-- C9: the child environment is the inherited environment overlaid with
`OPENENCODE_MODEL`, `OPENENCODE_MAX_TOKENS` and `OPENENCODE_WORKSPACE_DIR`
always (winning over inherited values), `OPENENCODE_API_KEY` only when
`config.api_key` is truthy, and every other variable passed through
unchanged. -/
theorem C9_build_env (osEnviron : EnvMap) (config : OpencodeConfig) (k : String) :
    build_env osEnviron config k =
      if k = "OPENENCODE_WORKSPACE_DIR" then some config.workspace_dir
      else if k = "OPENENCODE_MAX_TOKENS" then some (toString config.max_tokens)
      else if k = "OPENENCODE_MODEL" then some config.model
      else if k = "OPENENCODE_API_KEY" then
        match truthyStr config.api_key with
        | some key => some key
        | none => osEnviron k
      else osEnviron k := by
  unfold build_env EnvMap.set
  cases h : truthyStr config.api_key <;> split_ifs <;> simp_all

/-- Point at which an environment reading treats an empty-string variable
as if it were unset: normalising every empty value to absent. -/
def stripEmptyEnv (g : String → Option String) : String → Option String :=
  fun v =>
    match g v with
    | some s => if s = "" then none else some s
    | none => none

/-- Helper: the truthiness filter cannot tell an empty-string value from an
absent one. -/
theorem truthyStr_stripEmptyEnv (g : String → Option String) (v : String) :
    truthyStr (stripEmptyEnv g v) = truthyStr (g v) := by
  unfold stripEmptyEnv truthyStr
  cases hg : g v with
  | none => rfl
  | some s =>
      by_cases h : s = "" <;> simp [h]

/-- C10: `_read_env` treats a recognized variable set to the empty string
exactly as if it were absent — replacing every empty-string value by
absence does not change the result at all; in particular with all four
variables set to the empty string (including `OPENENCODE_MAX_TOKENS`) the
reading succeeds with an empty mapping and no non-integer error. -/
theorem C10_empty_env_is_absent (g : String → Option String) :
    readEnv g = readEnv (stripEmptyEnv g)
    ∧ readEnv (fun _ => some "") = Except.ok PyDict.empty
    ∧ readEnv (fun _ => some "") = readEnv (fun _ => none) := by
  refine ⟨?_, rfl, rfl⟩
  unfold readEnv
  simp only [truthyStr_stripEmptyEnv]

/-- C2 counterexample: with both config files absent and no environment
variables set, the resolved `workspace_dir` is the literal, unexpanded
default `~/opencode-workspace` — not the home-expanded default path the
claim requires (pydantic does not run the `expand_workspace_dir` validator
on the field default, since `validate_default` is not set). -/
theorem C2_counterexample :
    ((load "/home/user" (fun _ => none) (resolve_paths "/cfg/opencode-wrapper" "/proj")
        .absent .absent).toOption.map (fun r => r.config.workspace_dir)
      = some "~/opencode-workspace")
    ∧ expanduser "/home/user" "~/opencode-workspace" = "/home/user/opencode-workspace"
    ∧ ("~/opencode-workspace" : String) ≠ "/home/user/opencode-workspace" := by
  refine ⟨rfl, by decide, by decide⟩

/-- C2 (amended): whenever each config file is absent or contributes an
empty mapping (its `_read_yaml` reading is `{}` — covering an absent file,
an empty mapping document, and any falsy document) and none of the four
recognized environment variables is set, `load` succeeds and returns the
defaults `api_key = none`, `model = "gpt-4"`, `max_tokens = 4096`, and
`workspace_dir` equal to the unexpanded default path
`~/opencode-workspace`. -/
theorem C2_defaults_amended (home : String) (getenv : String → Option String)
    (paths : ConfigPaths) (uf pf : FileState)
    (hu : readYaml paths.user_config_file uf = .ok [])
    (hp : readYaml paths.project_config_file pf = .ok [])
    (h1 : getenv "OPENENCODE_API_KEY" = none)
    (h2 : getenv "OPENENCODE_MODEL" = none)
    (h3 : getenv "OPENENCODE_MAX_TOKENS" = none)
    (h4 : getenv "OPENENCODE_WORKSPACE_DIR" = none) :
    load home getenv paths uf pf =
      .ok ⟨⟨none, "gpt-4", 4096, "~/opencode-workspace"⟩,
        [⟨paths.user_config_file, uf.fileExists, false, []⟩,
         ⟨paths.project_config_file, pf.fileExists, false, []⟩]⟩ := by
  have henv : readEnv getenv = .ok PyDict.empty := by
    unfold readEnv
    simp only [h1, h2, h3, h4]
    rfl
  have hload := load_decompose home getenv paths uf pf [] [] PyDict.empty hu hp henv
  rw [hload]
  rfl

/-- C2 witness: the amended defaults theorem with the user file an empty
mapping document, the project file an empty (null) document — both
existing yet contributing empty mappings — concrete home, concrete paths
and an empty environment. -/
theorem C2_defaults_witness :
    load "/home/user" (fun _ => none) (resolve_paths "/cfg/opencode-wrapper" "/proj")
        (.parsed (.ymap [])) (.parsed .ynull) =
      .ok ⟨⟨none, "gpt-4", 4096, "~/opencode-workspace"⟩,
        [⟨"/cfg/opencode-wrapper/config.yaml", true, false, []⟩,
         ⟨"/proj/.opencode.yaml", true, false, []⟩]⟩ :=
  C2_defaults_amended "/home/user" (fun _ => none)
    (resolve_paths "/cfg/opencode-wrapper" "/proj") (.parsed (.ymap [])) (.parsed .ynull)
    rfl rfl rfl rfl rfl rfl

/-- Helper: validating a merged mapping whose only key is `max_tokens`
with an integer value reduces to the pydantic bounds check. -/
theorem modelValidate_maxTokens (home : String) (n : Int) :
    modelValidate home
        (mergeThree (entriesToDict []) (entriesToDict [("max_tokens", Value.vInt n)]) PyDict.empty)
      = if n < 1 then
          Except.error (.validationError "max_tokens: Input should be greater than or equal to 1")
        else if 32000 < n then
          Except.error (.validationError "max_tokens: Input should be less than or equal to 32000")
        else Except.ok ⟨none, "gpt-4", n, "~/opencode-workspace"⟩ := rfl

/-- C3 counterexample: with merged `max_tokens = 0`, `load` fails — but
with pydantic's `ValidationError` (raised by `model_validate`), which is
not the package's typed `ConfigError`; the CLI's `except ConfigError`
handler does not catch it, so the claim that such failures are surfaced as
the system's typed configuration error is false. -/
theorem C3_counterexample :
    load "/home/user" (fun _ => none) (resolve_paths "/cfg/opencode-wrapper" "/proj")
        .absent (.parsed (.ymap [("max_tokens", Value.vInt 0)]))
      = .error (.validationError "max_tokens: Input should be greater than or equal to 1")
    ∧ LoadError.isConfigError
        (.validationError "max_tokens: Input should be greater than or equal to 1") = false :=
  ⟨rfl, rfl⟩

/-- C3 (amended): with `max_tokens = n` supplied by the project file,
resolution accepts exactly the values in [1, 32000] (so 1 and 32000 pass,
0 and 32001 fail); a value outside the range makes `load` fail with
pydantic's `ValidationError`, which is not the package's `ConfigError`. -/
theorem C3_bounds_amended (n : Int) (home : String) (paths : ConfigPaths) :
    ((load home (fun _ => none) paths .absent
        (.parsed (.ymap [("max_tokens", .vInt n)]))).toOption.map
      (fun r => r.config.max_tokens)
      = if 1 ≤ n ∧ n ≤ 32000 then some n else none)
    ∧ (¬ (1 ≤ n ∧ n ≤ 32000) →
        ∃ msg, load home (fun _ => none) paths .absent
            (.parsed (.ymap [("max_tokens", .vInt n)]))
          = .error (.validationError msg)
          ∧ LoadError.isConfigError (.validationError msg) = false) := by
  have hload := load_decompose home (fun _ => none) paths .absent
      (.parsed (.ymap [("max_tokens", .vInt n)])) [] [("max_tokens", .vInt n)] PyDict.empty
      rfl rfl rfl
  rw [modelValidate_maxTokens home n] at hload
  by_cases h1 : n < 1
  · rw [if_pos h1] at hload
    have hnot : ¬ (1 ≤ n ∧ n ≤ 32000) := fun h => absurd h.1 (not_le.mpr h1)
    constructor
    · rw [hload, if_neg hnot]
      rfl
    · intro _
      exact ⟨"max_tokens: Input should be greater than or equal to 1", by rw [hload], rfl⟩
  · by_cases h2 : 32000 < n
    · rw [if_neg h1, if_pos h2] at hload
      have hnot : ¬ (1 ≤ n ∧ n ≤ 32000) := fun h => absurd h.2 (not_le.mpr h2)
      constructor
      · rw [hload, if_neg hnot]
        rfl
      · intro _
        exact ⟨"max_tokens: Input should be less than or equal to 32000", by rw [hload], rfl⟩
    · rw [if_neg h1, if_neg h2] at hload
      have hyes : 1 ≤ n ∧ n ≤ 32000 := ⟨not_lt.mp h1, not_lt.mp h2⟩
      constructor
      · rw [hload, if_pos hyes]
        rfl
      · intro hc
        exact absurd hyes hc

/-- C3 witness: the amended theorem applied at `n = 0` with concrete home
and paths, the out-of-range hypothesis discharged by decision. -/
theorem C3_witness :
    ¬ ((1:Int) ≤ 0 ∧ (0:Int) ≤ 32000)
    ∧ ∃ msg, load "/home/user" (fun _ => none) (resolve_paths "/cfg/opencode-wrapper" "/proj")
          .absent (.parsed (.ymap [("max_tokens", Value.vInt 0)]))
        = .error (.validationError msg)
        ∧ LoadError.isConfigError (.validationError msg) = false :=
  ⟨by decide,
   (C3_bounds_amended 0 "/home/user" (resolve_paths "/cfg/opencode-wrapper" "/proj")).2 (by decide)⟩

/-- Helper: bind on an error `Except` value is that error. -/
theorem exceptBind_err {α β ε : Type} (e : ε) (f : α → Except ε β) :
    (Except.error e : Except ε α) >>= f = Except.error e := rfl

/-- Helper: a truthy `OPENENCODE_MAX_TOKENS` value rejected by `int()`
makes `_read_env` raise the `ConfigError` naming that variable. -/
theorem readEnv_badMaxTokens (getenv : String → Option String) (s : String)
    (hset : getenv "OPENENCODE_MAX_TOKENS" = some s) (hne : s ≠ "")
    (hbad : pyInt s = none) :
    readEnv getenv = .error (.configError "OPENENCODE_MAX_TOKENS must be an integer") := by
  have hts : truthyStr (getenv "OPENENCODE_MAX_TOKENS") = some s := by
    rw [hset]
    simp [truthyStr, hne]
  unfold readEnv
  simp only [hts, hbad, exceptBind_err]

/-- C4 counterexample: `OPENENCODE_MAX_TOKENS` set to the empty string is a
value not parseable as an integer, yet resolution does not fail — the
falsy-value guard skips it silently, so the claim quantified over every
unparseable value is false. -/
theorem C4_counterexample :
    ((fun v => if v = "OPENENCODE_MAX_TOKENS" then some "" else none) "OPENENCODE_MAX_TOKENS"
      = some "")
    ∧ pyInt "" = none
    ∧ load "/home/user" (fun v => if v = "OPENENCODE_MAX_TOKENS" then some "" else none)
        (resolve_paths "/cfg/opencode-wrapper" "/proj") .absent .absent
      = .ok ⟨⟨none, "gpt-4", 4096, "~/opencode-workspace"⟩,
          [⟨"/cfg/opencode-wrapper/config.yaml", false, false, []⟩,
           ⟨"/proj/.opencode.yaml", false, false, []⟩]⟩ :=
  ⟨rfl, rfl, rfl⟩

/-- C4 (amended): whenever `OPENENCODE_MAX_TOKENS` is set to a NON-EMPTY
value that `int()` cannot parse, and both config files read successfully,
`load` fails hard with the `ConfigError` whose message names that
variable. -/
theorem C4_nonparse_env_amended (home : String) (getenv : String → Option String)
    (paths : ConfigPaths) (userFile projectFile : FileState)
    (ud pd : List (String × Value)) (s : String)
    (hu : readYaml paths.user_config_file userFile = .ok ud)
    (hp : readYaml paths.project_config_file projectFile = .ok pd)
    (hset : getenv "OPENENCODE_MAX_TOKENS" = some s)
    (hne : s ≠ "") (hbad : pyInt s = none) :
    load home getenv paths userFile projectFile
      = .error (.configError "OPENENCODE_MAX_TOKENS must be an integer") := by
  have henv := readEnv_badMaxTokens getenv s hset hne hbad
  unfold load
  simp only [hu, hp, henv, exceptBind_ok, exceptBind_err]

/-- C4 witness: the amended theorem at the concrete environment
`OPENENCODE_MAX_TOKENS=notanumber` with both files absent. -/
theorem C4_witness :
    load "/home/user" (fun v => if v = "OPENENCODE_MAX_TOKENS" then some "notanumber" else none)
        (resolve_paths "/cfg/opencode-wrapper" "/proj") .absent .absent
      = .error (.configError "OPENENCODE_MAX_TOKENS must be an integer") :=
  C4_nonparse_env_amended "/home/user"
    (fun v => if v = "OPENENCODE_MAX_TOKENS" then some "notanumber" else none)
    (resolve_paths "/cfg/opencode-wrapper" "/proj") .absent .absent [] [] "notanumber"
    rfl rfl rfl (by decide) rfl

/-- Helper: a truthy parsed document that is not a mapping makes
`_read_yaml` raise the `ConfigError` naming the offending path. -/
theorem readYaml_truthyNonMap (path : String) (y : Yaml)
    (htruthy : y.truthy = true) (hnotmap : y.isMap = false) :
    readYaml path (.parsed y)
      = .error (.configError ("Config file " ++ path ++ " must contain a mapping")) := by
  cases y <;> simp_all [readYaml, Yaml.truthy, Yaml.isMap]

/-- C5 counterexample: a config file whose parsed top-level content is the
empty sequence — not a mapping — does not make resolution fail: the
`or {}` in `_read_yaml` replaces every falsy document (the empty sequence
included) by an empty mapping before the `isinstance(dict)` check. -/
theorem C5_counterexample :
    Yaml.isMap (.yseq []) = false
    ∧ readYaml "/proj/.opencode.yaml" (.parsed (.yseq [])) = .ok []
    ∧ load "/home/user" (fun _ => none) (resolve_paths "/cfg/opencode-wrapper" "/proj")
        .absent (.parsed (.yseq []))
      = .ok ⟨⟨none, "gpt-4", 4096, "~/opencode-workspace"⟩,
          [⟨"/cfg/opencode-wrapper/config.yaml", false, false, []⟩,
           ⟨"/proj/.opencode.yaml", true, false, []⟩]⟩ :=
  ⟨rfl, rfl, rfl⟩

/-- C5 (amended): for every config file whose parsed top-level content is
truthy and not a mapping (for example a non-empty sequence), `load` fails
with the `ConfigError` naming that file's path — in the user-file
position a project file in any state, and in the project-file position
given the user file read successfully; a falsy non-mapping document
(empty sequence, null, false, 0, empty string) is instead treated as an
empty mapping. -/
theorem C5_nonmapping_amended (home : String) (getenv : String → Option String)
    (paths : ConfigPaths) (y : Yaml) (uf pf : FileState)
    (ud : List (String × Value))
    (htruthy : y.truthy = true) (hnotmap : y.isMap = false)
    (hu : readYaml paths.user_config_file uf = .ok ud) :
    load home getenv paths (.parsed y) pf
      = .error (.configError ("Config file " ++ paths.user_config_file ++ " must contain a mapping"))
    ∧ load home getenv paths uf (.parsed y)
      = .error (.configError ("Config file " ++ paths.project_config_file ++ " must contain a mapping")) := by
  have hry1 := readYaml_truthyNonMap paths.user_config_file y htruthy hnotmap
  have hry2 := readYaml_truthyNonMap paths.project_config_file y htruthy hnotmap
  constructor
  · unfold load
    simp only [hry1, exceptBind_err]
  · unfold load
    simp only [hu, hry2, exceptBind_ok, exceptBind_err]

/-- C5 witness: the amended theorem at the concrete non-empty sequence
document `[1]` in each file position. -/
theorem C5_witness :
    load "/home/user" (fun _ => none) (resolve_paths "/cfg/opencode-wrapper" "/proj")
        (.parsed (.yseq [.vInt 1])) .absent
      = .error (.configError
          ("Config file " ++ "/cfg/opencode-wrapper/config.yaml" ++ " must contain a mapping"))
    ∧ load "/home/user" (fun _ => none) (resolve_paths "/cfg/opencode-wrapper" "/proj")
        .absent (.parsed (.yseq [.vInt 1]))
      = .error (.configError
          ("Config file " ++ "/proj/.opencode.yaml" ++ " must contain a mapping")) :=
  C5_nonmapping_amended "/home/user" (fun _ => none)
    (resolve_paths "/cfg/opencode-wrapper" "/proj") (.yseq [.vInt 1]) .absent .absent []
    rfl rfl rfl

/-- C6: `write_default`: when the user config file already exists and
`force` is false it returns that file's path with no write and no error —
the filesystem state is returned unchanged; otherwise (file missing, or
`force` true) it marks the user config directory created, writes the
serialization of the all-defaults `OpencodeConfig`, and returns the same
path (provided the underlying write succeeds). -/
theorem C6_write_default (paths : ConfigPaths) (force : Bool) (fs : UserConfigFS)
    (writeOk : Bool) :
    (fs.fileContent.isSome = true → force = false →
      write_default paths force fs writeOk = .ok (paths.user_config_file, fs))
    ∧ ((fs.fileContent.isSome = false ∨ force = true) → writeOk = true →
      write_default paths force fs writeOk
        = .ok (paths.user_config_file, ⟨true, some OpencodeConfig.defaults.dumpJson⟩)) := by
  constructor
  · intro h1 h2
    unfold write_default
    rw [h1, h2]
    rfl
  · rintro (h | h) hw
    · unfold write_default
      rw [h, hw]
      cases force <;> rfl
    · unfold write_default
      rw [h, hw]
      cases hfc : fs.fileContent.isSome <;> rfl

/-- C6 witness: both branches at concrete paths — an existing file with
`force = false` is returned untouched, and a missing file is created with
the default dump. -/
theorem C6_witness :
    write_default (resolve_paths "/cfg/opencode-wrapper" "/proj") false
        ⟨true, some [("model", Value.vStr "x")]⟩ true
      = .ok ("/cfg/opencode-wrapper/config.yaml", ⟨true, some [("model", Value.vStr "x")]⟩)
    ∧ write_default (resolve_paths "/cfg/opencode-wrapper" "/proj") false ⟨false, none⟩ true
      = .ok ("/cfg/opencode-wrapper/config.yaml", ⟨true, some OpencodeConfig.defaults.dumpJson⟩) :=
  ⟨(C6_write_default (resolve_paths "/cfg/opencode-wrapper" "/proj") false
      ⟨true, some [("model", Value.vStr "x")]⟩ true).1 rfl rfl,
   (C6_write_default (resolve_paths "/cfg/opencode-wrapper" "/proj") false
      ⟨false, none⟩ true).2 (Or.inl rfl) rfl⟩
